import Mathlib

/-!
Verification of the cache-first retrieval-augmented query engine of the
recall-ai repository: a shallow embedding of `cache_manager.py` and
`utils.py` (the recency cache, the owner-scoped vector search, collection
bootstrap, embedding generation and the knowledge-base query path),
together with theorems settling the specification's claims.

Modelling conventions: Python floats used only as opaque ordered values
(similarity scores) are modelled as `Rat`; timestamps (`time.time()`) as
`Nat` instants; Python dicts preserving insertion order (`OrderedDict`)
as association lists ordered oldest-first; raised exceptions as `Except`
values.
-/

/-- An apostrophe character, used to build message strings. -/
def apos : String := String.singleton (Char.ofNat 39)

/-- One formatted search hit as cached verbatim: the dict built by
`search_vector_db` / `search_vector_db_enhanced` in `utils.py`
(`id`, `score`, `text`, `timestamp`, `content_type`, `metadata`). -/
structure ScoredResult where
  id : String
  score : Rat
  text : String
  timestamp : Nat
  content_type : String
  metadata : List (String × String)
deriving DecidableEq, Repr

/-- The `SearchResult` dataclass of `cache_manager.py`: one cached search. -/
structure SearchResult where
  query : String
  results : List ScoredResult
  timestamp : Nat
  username : String
deriving DecidableEq, Repr

/-- The in-memory search cache: an `OrderedDict[str, SearchResult]`
modelled as an association list, oldest (front of the `OrderedDict`)
first; `popitem(last=False)` removes the head. -/
abbrev SearchCache := List (String × SearchResult)

/-- The cache key built in `cache_search_result` and `_load_search_cache`
of `cache_manager.py`: the Python f-string `username:query`. -/
def cacheKey (username query : String) : String :=
  username ++ ":" ++ query

/-- Embedding of `CacheManager.cache_search_result` of `cache_manager.py`: delete the
key if present (to update position), append the fresh entry at the
most-recent end, then pop from the least-recent end while over
`max_search_cache` (`cap`, default 10). -/
def cache_search_result (cap : Nat) (query : String) (results : List ScoredResult)
    (username : String) (now : Nat) (cache : SearchCache) : SearchCache :=
  let key := cacheKey username query
  let c1 := cache.filter (fun kv => kv.1 != key)
  let c2 := c1 ++ [(key, ⟨query, results, now, username⟩)]
  if c2.length > cap then c2.drop (c2.length - cap) else c2

/-- Stable insertion into a list sorted by `le` (`le x y` = `x` may come
no later than `y`); ties keep `x` first, matching Python stable sort. -/
def insertSorted (le : α → α → Bool) (x : α) : List α → List α
  | [] => [x]
  | y :: ys => if le x y then x :: y :: ys else y :: insertSorted le x ys

/-- Stable sort by `le`, matching Python `list.sort` stability. -/
def sortStable (le : α → α → Bool) : List α → List α
  | [] => []
  | x :: xs => insertSorted le x (sortStable le xs)

/-- Embedding of `CacheManager.get_cached_searches` of `cache_manager.py`: the values
whose `username` matches, sorted newest-first by timestamp (stable, as
Python `sort(key=..., reverse=True)`), truncated to `limit`. -/
def get_cached_searches (cache : SearchCache) (username : String) (limit : Nat) :
    List SearchResult :=
  let user_searches := (cache.map Prod.snd).filter (fun r => r.username == username)
  (sortStable (fun a b => b.timestamp ≤ a.timestamp) user_searches).take limit

/-- Python `str.lower()` (ASCII case folding), defined structurally on
the character list so that concrete instances reduce. -/
def pyLower (s : String) : String :=
  String.mk (s.data.map Char.toLower)

/-- Python `str.strip()`: remove leading and trailing whitespace,
defined structurally on the character list. -/
def pyStrip (s : String) : String :=
  String.mk
    (((s.data.dropWhile Char.isWhitespace).reverse.dropWhile
      Char.isWhitespace).reverse)

/-- Contiguous-substring test on character lists, the meaning of the
Python `in` operator on strings. -/
def isSubstr (needle : List Char) : List Char → Bool
  | [] => needle.isPrefixOf []
  | c :: rest => needle.isPrefixOf (c :: rest) || isSubstr needle rest

/-- The fuzzy-match condition tested in the scan loop of
`search_cache_first` in `utils.py`: exact case-insensitive equality, or
the new query (if longer than 10 chars) occurs in the cached query, or
the cached query (if longer than 10 chars) occurs in the new query. -/
def fuzzyMatchCond (query : String) (cached : SearchResult) : Bool :=
  pyLower cached.query == pyLower query ||
  (query.length > 10 &&
    isSubstr (pyLower query).toList (pyLower cached.query).toList) ||
  (cached.query.length > 10 &&
    isSubstr (pyLower cached.query).toList (pyLower query).toList)

/-- The cache-scan decision of `search_cache_first` in `utils.py`: fetch
the owner's 20 most recent cached searches and return the first one
satisfying `fuzzyMatchCond`. -/
def search_cache_first_match (cache : SearchCache) (username query : String) :
    Option SearchResult :=
  (get_cached_searches cache username 20).find? (fuzzyMatchCond query)

-- Basic sanity examples (cache behaviour on tiny inputs).
example : cacheKey "a" "b" = "a:b" := rfl
example :
    (cache_search_result 10 "q" [] "u" 5 []).length = 1 := rfl
example :
    cache_search_result 2 "c" [] "u" 3
      [("u:a", ⟨"a", [], 1, "u"⟩), ("u:b", ⟨"b", [], 2, "u"⟩)] =
      [("u:b", ⟨"b", [], 2, "u"⟩), ("u:c", ⟨"c", [], 3, "u"⟩)] := rfl

/-! ### Vector store (Qdrant) model -/

/-- One point stored in the Qdrant collection, with the payload written
by `store_in_vector_db` in `utils.py` (`text`, `username`, `timestamp`,
`content_type`, plus free-form extra metadata). -/
structure StoredPoint where
  id : String
  vector : List Rat
  text : String
  username : String
  timestamp : Nat
  content_type : String
  extra : List (String × String)
deriving DecidableEq, Repr

/-- The payload keys excluded from the `metadata` dict comprehension in
the result formatting of `search_vector_db` / `search_vector_db_enhanced`. -/
def reservedPayloadKeys : List String :=
  ["text", "username", "timestamp", "content_type"]

/-- Semantics of the Qdrant `search` call as issued by `utils.py`: keep
the points whose `username` payload field exactly matches the
`FieldCondition` of the `must` filter, drop those under the score
threshold when one is given, order by descending similarity score
(`sim` is the store's scoring function against the query vector), and
truncate to `limit`. -/
def qdrantSearch (sim : List Rat → List Rat → Rat) (db : List StoredPoint)
    (query_vector : List Rat) (username : String) (limit : Nat)
    (score_threshold : Option Rat) : List StoredPoint :=
  let filtered := db.filter (fun p => p.username == username)
  let thresholded :=
    match score_threshold with
    | some t => filtered.filter (fun p => t ≤ sim query_vector p.vector)
    | none => filtered
  (sortStable (fun a b => sim query_vector b.vector ≤ sim query_vector a.vector)
    thresholded).take limit

/-- Result formatting of both search functions in `utils.py`: the dict
with `id`, `score`, `text`, `timestamp`, `content_type` and the payload
minus the reserved keys as `metadata`. -/
def formatHit (sim : List Rat → List Rat → Rat) (query_vector : List Rat)
    (p : StoredPoint) : ScoredResult :=
  { id := p.id
    score := sim query_vector p.vector
    text := p.text
    timestamp := p.timestamp
    content_type := p.content_type
    metadata := p.extra.filter (fun kv => !(reservedPayloadKeys.contains kv.1)) }

/-- The hits underlying `search_vector_db` (plain search: no score
threshold, default limit 5). -/
def search_vector_db_hits (sim : List Rat → List Rat → Rat)
    (db : List StoredPoint) (query_embedding : List Rat) (username : String)
    (limit : Nat) : List StoredPoint :=
  qdrantSearch sim db query_embedding username limit none

/-- Embedding of `search_vector_db` of `utils.py`: owner-filtered similarity search,
results formatted. -/
def search_vector_db (sim : List Rat → List Rat → Rat) (db : List StoredPoint)
    (query_embedding : List Rat) (username : String) (limit : Nat) :
    List ScoredResult :=
  (search_vector_db_hits sim db query_embedding username limit).map
    (formatHit sim query_embedding)

/-- The hits underlying `search_vector_db_enhanced` (broad search:
`score_threshold=0.3`, default limit 10). -/
def search_vector_db_enhanced_hits (sim : List Rat → List Rat → Rat)
    (db : List StoredPoint) (query_embedding : List Rat) (username : String)
    (limit : Nat) : List StoredPoint :=
  qdrantSearch sim db query_embedding username limit (some (3 / 10))

/-- Embedding of `search_vector_db_enhanced` of `utils.py`: owner-filtered similarity
search with the lower 0.3 score threshold, results formatted. -/
def search_vector_db_enhanced (sim : List Rat → List Rat → Rat)
    (db : List StoredPoint) (query_embedding : List Rat) (username : String)
    (limit : Nat) : List ScoredResult :=
  (search_vector_db_enhanced_hits sim db query_embedding username limit).map
    (formatHit sim query_embedding)

/-! ### Collection bootstrap -/

/-- Embedding of `get_embedding_dimensions` of `utils.py`: the static provider/model
lookup table, defaulting to 1536 for unknown combinations. -/
def get_embedding_dimensions (provider embedding_model : String) : Nat :=
  let provider_models : List (String × Nat) :=
    match provider with
    | "OpenAI" =>
        [("text-embedding-ada-002", 1536), ("text-embedding-3-small", 1536),
         ("text-embedding-3-large", 3072)]
    | "Gemini" =>
        [("text-embedding-004", 768), ("embedding-001", 768),
         ("embedding-gecko-001", 768)]
    | "Claude" => [("text-embedding-ada-002", 1536)]
    | "GitHub" =>
        [("text-embedding-ada-002", 1536), ("text-embedding-3-small", 1536)]
    | "Custom" => [("default", 1536)]
    | _ => []
  (((provider_models.find? (fun kv => kv.1 == embedding_model)).map Prod.snd).getD 1536)

/-- The payload indexes provisioned by `_ensure_indexes_exist` in
`utils.py`: `username` (keyword), `content_type` (keyword), `timestamp`
(float). -/
def requiredIndexes : List String := ["username", "content_type", "timestamp"]

/-- State of the Qdrant collection: configured vector size, stored
points, provisioned payload indexes. -/
structure CollectionInfo where
  size : Nat
  points : List StoredPoint
  indexes : List String
deriving DecidableEq, Repr

/-- Embedding of `_ensure_indexes_exist`: create each required payload index (a
no-op for indexes that already exist). -/
def ensure_indexes_exist (idxs : List String) : List String :=
  idxs ++ requiredIndexes.filter (fun i => !(idxs.contains i))

/-- Embedding of `_create_collection_with_indexes` of `utils.py`: fresh collection of
the given vector size with the payload indexes provisioned. -/
def create_collection_with_indexes (dimensions : Nat) : CollectionInfo :=
  { size := dimensions, points := [], indexes := ensure_indexes_exist [] }

/-- Embedding of `ensure_collection_exists` of `utils.py`: when the collection is
absent, create it at the dimensionality expected for the configured
provider/model; when present with a mismatched vector size, delete it
and recreate it (dropping every stored point) at the expected size;
when present with the matching size, keep it and only ensure the
payload indexes exist. -/
def ensure_collection_exists (provider embedding_model : String)
    (coll : Option CollectionInfo) : CollectionInfo :=
  let expected_dims := get_embedding_dimensions provider embedding_model
  match coll with
  | some info =>
      if info.size != expected_dims then
        create_collection_with_indexes expected_dims
      else
        { info with indexes := ensure_indexes_exist info.indexes }
  | none => create_collection_with_indexes expected_dims

/-! ### Embedding adapter -/

/-- Python exception values relevant to the embedding path: the
`ValueError` raised on empty text and the `AIServiceError` of
`exceptions.py` that `generate_embedding` raises on any failure. -/
inductive PyError where
  | valueError (msg : String)
  | aiServiceError (msg : String)
deriving DecidableEq, Repr

/-- The message string carried by an exception (Python `str(e)`). -/
def PyError.msg : PyError → String
  | .valueError m => m
  | .aiServiceError m => m

/-- Whether an exception is an `AIServiceError`. -/
def PyError.isAIServiceError : PyError → Bool
  | .valueError _ => false
  | .aiServiceError _ => true

instance {ε α : Type} [DecidableEq ε] [DecidableEq α] : DecidableEq (Except ε α)
  | .ok x, .ok y =>
      if h : x = y then isTrue (congrArg Except.ok h)
      else isFalse (fun hh => h (Except.ok.inj hh))
  | .ok _, .error _ => isFalse (fun h => Except.noConfusion h)
  | .error _, .ok _ => isFalse (fun h => Except.noConfusion h)
  | .error x, .error y =>
      if h : x = y then isTrue (congrArg Except.error h)
      else isFalse (fun hh => h (Except.error.inj hh))

/-- Outcome of a call to the embedding adapter: the returned vector or
the raised exception, plus how many times the provider backend was
actually invoked. -/
structure EmbedOutcome where
  result : Except PyError (List Rat)
  backendCalls : Nat
deriving DecidableEq, Repr

/-- The `try` body of `generate_embedding` in `utils.py`: strip the
text, raise `ValueError` when the stripped text is empty, truncate to
8000 characters, then call the provider backend (`backend` returns the
embedding or the backend failure's message). -/
def generate_embedding_body (backend : String → Except String (List Rat))
    (text : String) : EmbedOutcome :=
  let cleaned_text := pyStrip text
  if cleaned_text == "" then
    ⟨.error (.valueError "Text cannot be empty"), 0⟩
  else
    let truncated :=
      if cleaned_text.length > 8000 then
        String.mk (cleaned_text.toList.take 8000)
      else cleaned_text
    match backend truncated with
    | .ok embedding => ⟨.ok embedding, 1⟩
    | .error e => ⟨.error (.aiServiceError e), 1⟩

/-- Embedding of `generate_embedding` of `utils.py`: run the body and wrap any
exception — the empty-text `ValueError` included — into an
`AIServiceError` carrying the provider name and the original message
(the blanket `except Exception` handler). -/
def generate_embedding (provider : String)
    (backend : String → Except String (List Rat)) (text : String) :
    EmbedOutcome :=
  match generate_embedding_body backend text with
  | ⟨.ok embedding, n⟩ => ⟨.ok embedding, n⟩
  | ⟨.error e, n⟩ =>
      ⟨.error (.aiServiceError
        ("Failed to generate embedding with " ++ provider ++ ": " ++ e.msg)), n⟩

/-! ### Query engine -/

/-- One chat message (`role`, `content`) as passed to `chat_completion`. -/
structure ChatMessage where
  role : String
  content : String
deriving DecidableEq, Repr

/-- The fixed message returned when the knowledge base holds nothing
relevant (the literal string of `utils.py`, apostrophe included). -/
def noInfoMessage : String :=
  "I couldn" ++ apos ++ "t find any relevant information in your knowledge base for this query."

/-- The keyword set of `query_knowledge_base` that marks a query as an
enumeration-style ("comprehensive") question. -/
def comprehensiveKeywords : List String :=
  ["all", "list", "every", "entire", "complete"]

/-- The limit adjustment at the top of `query_knowledge_base`: double
the limit (capped at 20) when any keyword occurs in the lowered query. -/
def adjustedLimit (query : String) (limit : Nat) : Nat :=
  if comprehensiveKeywords.any
      (fun w => isSubstr w.toList (pyLower query).toList) then
    min (limit * 2) 20
  else limit

/-- The context block built by `query_knowledge_base`: each result's
text preceded by its 1-based index and similarity score, joined by
blank lines (the Python `:.3f` decimal rendering of the score is
abstracted by `toString`). -/
def buildContext (results : List ScoredResult) : String :=
  String.intercalate "\n\n"
    ((results.enum).map (fun p =>
      "Content " ++ toString (p.1 + 1) ++ " (relevance: " ++ toString p.2.score ++
      "):\n" ++ p.2.text))

/-- The system prompt of `query_knowledge_base` (verbatim, with the
source's indentation whitespace elided). -/
def kbSystemPrompt : String :=
  "You are a helpful assistant that answers questions based on the user" ++ apos ++
  "s personal knowledge base. When the user asks to \"list all\" or for multiple items, provide a comprehensive list showing ALL relevant results found. For each item, include the website name/URL and key details. Provide direct, clean answers without any formatting like " ++
  apos ++ "Your Question:" ++ apos ++ ", " ++ apos ++ "Answer:" ++ apos ++
  ", or markdown symbols like **. If referring to files or links, present them clearly with proper formatting. Keep responses organized and helpful. If you don" ++
  apos ++ "t have the information, simply say so. Special handling: - If a website shows 404 or access errors, mention it but still include it in the list - Focus on providing complete information rather than just mentioning one result - Group similar items together when appropriate"

/-- Outcome of one run of the query engine: the answer text, the cache
state afterwards, and how many embedding / vector-search / chat calls
were made. -/
structure QueryOutcome where
  answer : String
  cacheAfter : SearchCache
  embedCalls : Nat
  searchCalls : Nat
  chatCalls : Nat
deriving DecidableEq, Repr

/-- Embedding of `query_knowledge_base` of `utils.py` over explicit adapter oracles
(`embed`, `search`, `chat`): adjust the limit for enumeration-style
queries, embed the query, run the enhanced vector search; on zero
results return the fixed no-information message at once (no caching, no
chat call); otherwise cache the fresh results and ask the chat adapter
with the context block. -/
def query_knowledge_base (embed : String → List Rat)
    (search : List Rat → String → Nat → List ScoredResult)
    (chat : List ChatMessage → String) (cap now : Nat)
    (query username : String) (limit : Nat) (cache : SearchCache) :
    QueryOutcome :=
  let lim := adjustedLimit query limit
  let query_embedding := embed query
  let search_results := search query_embedding username lim
  if search_results.isEmpty then
    ⟨noInfoMessage, cache, 1, 1, 0⟩
  else
    let cache2 := cache_search_result cap query search_results username now cache
    let context := buildContext search_results
    let messages : List ChatMessage :=
      [⟨"system", kbSystemPrompt⟩,
       ⟨"user", "Context:\n" ++ context ++ "\n\nQuestion: " ++ query⟩]
    ⟨chat messages, cache2, 1, 1, 1⟩

/-- The cache update performed by the hit branch of `search_cache_first`
in `utils.py`: on a fuzzy match, re-`put` the matched entry's results
under the *new* query string (moving nothing; a fresh key is simply
appended); on a miss the cache is left to `query_knowledge_base`. -/
def search_cache_first_hit_update (cap now : Nat) (cache : SearchCache)
    (username query : String) : SearchCache :=
  match search_cache_first_match cache username query with
  | some r => cache_search_result cap query r.results username now cache
  | none => cache

/-! ### Concrete fixtures used by witnesses and counterexamples -/

/-- A point stored under owner alice, used as concrete search data. -/
def alicePoint : StoredPoint :=
  ⟨"p1", [1], "alice text", "alice", 1, "general", []⟩

/-- A point stored under owner bob, used as concrete search data. -/
def bobPoint : StoredPoint :=
  ⟨"p2", [1], "bob text", "bob", 2, "general", []⟩

/-- A concrete cache of ten entries for owner u, oldest first. -/
def cacheTen : SearchCache :=
  [("u:q0", ⟨"q0", [], 0, "u"⟩), ("u:q1", ⟨"q1", [], 1, "u"⟩),
   ("u:q2", ⟨"q2", [], 2, "u"⟩), ("u:q3", ⟨"q3", [], 3, "u"⟩),
   ("u:q4", ⟨"q4", [], 4, "u"⟩), ("u:q5", ⟨"q5", [], 5, "u"⟩),
   ("u:q6", ⟨"q6", [], 6, "u"⟩), ("u:q7", ⟨"q7", [], 7, "u"⟩),
   ("u:q8", ⟨"q8", [], 8, "u"⟩), ("u:q9", ⟨"q9", [], 9, "u"⟩)]

/-- A concrete result list carried by a cached search. -/
def demoResults : List ScoredResult :=
  [⟨"doc1", 1, "some stored text", 0, "general", []⟩]

/-- A full ten-entry cache whose oldest (least-recently-inserted) entry
is the only one fuzzily matching the query "python tutorials": its
cached query "python tutorials extra" contains the new query, which is
longer than 10 characters. -/
def cacheOldestMatches : SearchCache :=
  [("u:python tutorials extra", ⟨"python tutorials extra", demoResults, 0, "u"⟩),
   ("u:f1", ⟨"f1", [], 1, "u"⟩), ("u:f2", ⟨"f2", [], 2, "u"⟩),
   ("u:f3", ⟨"f3", [], 3, "u"⟩), ("u:f4", ⟨"f4", [], 4, "u"⟩),
   ("u:f5", ⟨"f5", [], 5, "u"⟩), ("u:f6", ⟨"f6", [], 6, "u"⟩),
   ("u:f7", ⟨"f7", [], 7, "u"⟩), ("u:f8", ⟨"f8", [], 8, "u"⟩),
   ("u:f9", ⟨"f9", [], 9, "u"⟩)]

/-- A full ten-entry cache whose oldest entry belongs to owner bob and
the other nine to owner alice. -/
def cacheMixedOwners : SearchCache :=
  [("bob:q0", ⟨"q0", [], 0, "bob"⟩),
   ("alice:q1", ⟨"q1", [], 1, "alice"⟩), ("alice:q2", ⟨"q2", [], 2, "alice"⟩),
   ("alice:q3", ⟨"q3", [], 3, "alice"⟩), ("alice:q4", ⟨"q4", [], 4, "alice"⟩),
   ("alice:q5", ⟨"q5", [], 5, "alice"⟩), ("alice:q6", ⟨"q6", [], 6, "alice"⟩),
   ("alice:q7", ⟨"q7", [], 7, "alice"⟩), ("alice:q8", ⟨"q8", [], 8, "alice"⟩),
   ("alice:q9", ⟨"q9", [], 9, "alice"⟩)]

/-- A one-entry cache whose single cached query matches the new query
"HELLO world" case-insensitively. -/
def cacheOne : SearchCache :=
  [("u:hello world", ⟨"hello world", demoResults, 1, "u"⟩)]

/-! ### Helper lemmas -/

/-- Membership is preserved by stable insertion. -/
theorem mem_insertSorted {le : α → α → Bool} {x a : α} {l : List α} :
    a ∈ insertSorted le x l ↔ a = x ∨ a ∈ l := by
  induction l with
  | nil => simp [insertSorted]
  | cons y ys ih =>
      simp only [insertSorted]
      split
      · simp [List.mem_cons]
      · simp only [List.mem_cons, ih]
        tauto

/-- Membership is preserved by the stable sort. -/
theorem mem_sortStable {le : α → α → Bool} {a : α} {l : List α} :
    a ∈ sortStable le l ↔ a ∈ l := by
  induction l with
  | nil => simp [sortStable]
  | cons x xs ih => simp [sortStable, mem_insertSorted, ih]

/-- The `find?` function returns the first satisfying element: the list splits into a
fully-failing front, the found element, and a tail. -/
theorem find?_eq_some_split {p : α → Bool} {l : List α} {r : α}
    (h : l.find? p = some r) :
    p r = true ∧ ∃ s t, l = s ++ r :: t ∧ ∀ e ∈ s, p e = false := by
  induction l with
  | nil => simp at h
  | cons x xs ih =>
      cases hx : p x with
      | true =>
          rw [List.find?_cons_of_pos _ hx] at h
          cases h
          exact ⟨hx, [], xs, rfl, by simp⟩
      | false =>
          rw [List.find?_cons_of_neg _ (by simp [hx])] at h
          obtain ⟨hr, s, t, hsplit, hfail⟩ := ih h
          refine ⟨hr, x :: s, t, by simp [hsplit], ?_⟩
          intro e he
          rcases List.mem_cons.mp he with he | he
          · exact he ▸ hx
          · exact hfail e he

/-! ### Claim theorems -/

/-- C1: every point selected by `search_vector_db` or
`search_vector_db_enhanced` carries the `username` of the calling
owner — the `must`-filter is owner-scoped, so a search under owner A
never returns a point stored under owner B — and both functions return
exactly the formatted versions of those owner-scoped hits. -/
theorem C1_owner_scoped_search (sim : List Rat → List Rat → Rat)
    (db : List StoredPoint) (qv : List Rat) (username : String) (limit : Nat)
    (p : StoredPoint) :
    (p ∈ search_vector_db_hits sim db qv username limit → p.username = username) ∧
    (p ∈ search_vector_db_enhanced_hits sim db qv username limit →
      p.username = username) ∧
    search_vector_db sim db qv username limit =
      (search_vector_db_hits sim db qv username limit).map (formatHit sim qv) ∧
    search_vector_db_enhanced sim db qv username limit =
      (search_vector_db_enhanced_hits sim db qv username limit).map
        (formatHit sim qv) := by
  refine ⟨?_, ?_, rfl, rfl⟩
  · intro hmem
    simp only [search_vector_db_hits, qdrantSearch] at hmem
    have h1 := mem_sortStable.mp (List.mem_of_mem_take hmem)
    exact eq_of_beq (List.mem_filter.mp h1).2
  · intro hmem
    simp only [search_vector_db_enhanced_hits, qdrantSearch] at hmem
    have h1 := mem_sortStable.mp (List.mem_of_mem_take hmem)
    have h2 := (List.mem_filter.mp h1).1
    exact eq_of_beq (List.mem_filter.mp h2).2

/-- Witness for C1: on a concrete two-owner store, the point found by a
search under alice carries username alice. -/
theorem C1_owner_scoped_search_witness : alicePoint.username = "alice" :=
  (C1_owner_scoped_search (fun _ _ => 1) [alicePoint, bobPoint] [1] "alice" 5
    alicePoint).1 (by decide)

/-- C2: after any `cache_search_result` the cache holds at most `cap`
entries; and a put of a fresh key into a cache holding exactly `cap ≥ 1`
entries evicts exactly the least-recently-inserted entry (the head of
the insertion-ordered cache), appending the new entry at the
most-recent end. -/
theorem C2_capacity_bound_and_lru_eviction (cap now : Nat)
    (query username : String) (results : List ScoredResult)
    (cache : SearchCache) :
    (cache_search_result cap query results username now cache).length ≤ cap ∧
    (cache.length = cap → 1 ≤ cap →
      cacheKey username query ∉ cache.map Prod.fst →
      cache_search_result cap query results username now cache =
        cache.drop 1 ++
          [(cacheKey username query, ⟨query, results, now, username⟩)]) := by
  constructor
  · simp only [cache_search_result]
    split
    · rename_i h
      simp only [List.length_drop]
      omega
    · rename_i h
      omega
  · intro hlen hcap hnot
    have hfilter :
        cache.filter (fun kv => kv.1 != cacheKey username query) = cache := by
      apply List.filter_eq_self.mpr
      intro kv hkv
      have hne : kv.1 ≠ cacheKey username query := by
        intro heq
        exact hnot (heq ▸ List.mem_map_of_mem Prod.fst hkv)
      exact bne_iff_ne.mpr hne
    have hlen2 :
        (cache ++
          [(cacheKey username query,
            (⟨query, results, now, username⟩ : SearchResult))]).length =
          cap + 1 := by
      simp [hlen]
    simp only [cache_search_result, hfilter, hlen2]
    rw [if_pos (by omega)]
    have hsub : cap + 1 - cap = 1 := by omega
    rw [hsub, List.drop_append_of_le_length (by omega)]

/-- Witness for C2: putting an eleventh distinct key into the full
ten-entry cache evicts exactly the oldest entry. -/
theorem C2_capacity_bound_and_lru_eviction_witness :
    cache_search_result 10 "new" [] "u" 99 cacheTen =
      cacheTen.drop 1 ++ [(cacheKey "u" "new", ⟨"new", [], 99, "u"⟩)] :=
  (C2_capacity_bound_and_lru_eviction 10 99 "new" "u" [] cacheTen).2
    (by decide) (by decide) (by decide)

/-- C3: the fuzzy-match decision is `find?` over the owner's 20 most
recent entries in newest-first order: a returned entry satisfies the
three-way condition and every newer (earlier-scanned) entry fails it;
when the decision is empty, no entry of the window satisfies the
condition. -/
theorem C3_fuzzy_first_match_wins (cache : SearchCache) (username query : String) :
    (∀ r, search_cache_first_match cache username query = some r →
      fuzzyMatchCond query r = true ∧
      ∃ s t, get_cached_searches cache username 20 = s ++ r :: t ∧
        ∀ e ∈ s, fuzzyMatchCond query e = false) ∧
    (search_cache_first_match cache username query = none →
      ∀ e ∈ get_cached_searches cache username 20,
        fuzzyMatchCond query e = false) := by
  constructor
  · intro r h
    exact find?_eq_some_split h
  · intro h e he
    have hne := List.find?_eq_none.mp h e he
    simpa using hne

/-- Witness for C3: on the one-entry cache the decision returns the
case-insensitively equal cached query, and it satisfies the condition. -/
theorem C3_fuzzy_first_match_wins_witness :
    fuzzyMatchCond "HELLO world" ⟨"hello world", demoResults, 1, "u"⟩ = true :=
  ((C3_fuzzy_first_match_wins cacheOne "u" "HELLO world").1
    ⟨"hello world", demoResults, 1, "u"⟩ (by decide)).1

/-- C4: when the enhanced vector search returns zero results, the query
engine answers with the fixed no-relevant-information message and never
invokes the chat completion adapter. -/
theorem C4_empty_results_skip_chat (embed : String → List Rat)
    (search : List Rat → String → Nat → List ScoredResult)
    (chat : List ChatMessage → String) (cap now : Nat)
    (query username : String) (limit : Nat) (cache : SearchCache)
    (h : search (embed query) username (adjustedLimit query limit) = []) :
    (query_knowledge_base embed search chat cap now query username limit
        cache).answer = noInfoMessage ∧
    (query_knowledge_base embed search chat cap now query username limit
        cache).chatCalls = 0 := by
  simp [query_knowledge_base, h]

/-- Witness for C4: with a search oracle returning nothing, the answer
is the fixed message and the chat adapter is not called. -/
theorem C4_empty_results_skip_chat_witness :
    (query_knowledge_base (fun _ => [1]) (fun _ _ _ => [])
        (fun _ => "chatty") 10 0 "q" "u" 10 []).answer = noInfoMessage ∧
    (query_knowledge_base (fun _ => [1]) (fun _ _ _ => [])
        (fun _ => "chatty") 10 0 "q" "u" 10 []).chatCalls = 0 :=
  C4_empty_results_skip_chat (fun _ => [1]) (fun _ _ _ => [])
    (fun _ => "chatty") 10 0 "q" "u" 10 [] rfl

/-- C5: when the existing collection's vector size differs from the
dimensionality expected for the configured provider/model,
`ensure_collection_exists` recreates it — afterwards the size equals
the expected dimensionality, every stored point is gone, and the
payload indexes are re-provisioned; when the sizes match, the stored
points are kept. -/
theorem C5_dimension_mismatch_recreates (provider embedding_model : String)
    (info : CollectionInfo) :
    (info.size ≠ get_embedding_dimensions provider embedding_model →
      (ensure_collection_exists provider embedding_model (some info)).size =
          get_embedding_dimensions provider embedding_model ∧
      (ensure_collection_exists provider embedding_model (some info)).points = [] ∧
      (ensure_collection_exists provider embedding_model (some info)).indexes =
          requiredIndexes) ∧
    (info.size = get_embedding_dimensions provider embedding_model →
      (ensure_collection_exists provider embedding_model (some info)).points =
          info.points ∧
      (ensure_collection_exists provider embedding_model (some info)).size =
          info.size) := by
  by_cases h : info.size = get_embedding_dimensions provider embedding_model
  · refine ⟨fun hne => absurd h hne, fun _ => ?_⟩
    simp [ensure_collection_exists, h]
  · refine ⟨fun _ => ?_, fun heq => absurd heq h⟩
    simp [ensure_collection_exists, create_collection_with_indexes,
      ensure_indexes_exist, h, requiredIndexes]

/-- Witness for C5: a 1536-wide collection holding a point, checked
against OpenAI text-embedding-3-large (3072 expected), is recreated
empty at 3072. -/
theorem C5_dimension_mismatch_recreates_witness :
    (ensure_collection_exists "OpenAI" "text-embedding-3-large"
        (some ⟨1536, [alicePoint], requiredIndexes⟩)).size = 3072 ∧
    (ensure_collection_exists "OpenAI" "text-embedding-3-large"
        (some ⟨1536, [alicePoint], requiredIndexes⟩)).points = [] :=
  let h := (C5_dimension_mismatch_recreates "OpenAI" "text-embedding-3-large"
    ⟨1536, [alicePoint], requiredIndexes⟩).1 (by decide)
  ⟨h.1, h.2.1⟩

/-- C6 counterexample: the cache key is not the plain concatenation of
owner and query — the code joins them with a colon — so the collision
the claim asserts does not happen: owner ab with query c and owner a
with query bc produce different keys, and putting both into an empty
cache yields two entries, not one aliased entry. -/
theorem C6_counterexample :
    cacheKey "ab" "c" ≠ cacheKey "a" "bc" ∧
    cacheKey "ab" "c" ≠ "ab" ++ "c" ∧
    (cache_search_result 10 "bc" [] "a" 2
      (cache_search_result 10 "c" [] "ab" 1 [])).length = 2 := by
  refine ⟨by decide, by decide, by decide⟩

/-- C6 amended: the recency-cache key is owner ++ colon ++ query, so
two logically distinct (owner, query) pairs alias a single cache entry
exactly when their colon-joined forms coincide — owner a:b with query c
collides with owner a with query b:c (two puts leave one entry), while
owner ab with query c does not collide with owner a with query bc. -/
theorem C6_amended_colon_key_aliasing :
    (∀ o q o2 q2 : String,
      cacheKey o q = cacheKey o2 q2 ↔ o ++ ":" ++ q = o2 ++ ":" ++ q2) ∧
    cacheKey "a:b" "c" = cacheKey "a" "b:c" ∧
    (cache_search_result 10 "b:c" [] "a" 2
      (cache_search_result 10 "c" [] "a:b" 1 [])).length = 1 := by
  refine ⟨fun _ _ _ _ => Iff.rfl, by decide, by decide⟩

/-- C7 counterexample: the empty-text failure of `generate_embedding`
surfaces as an `AIServiceError` — the very same exception class raised
on a backend failure — because the blanket handler wraps the inner
`ValueError`; there is no distinct InvalidInput-class error. -/
theorem C7_counterexample :
    (generate_embedding "OpenAI" (fun _ => Except.ok [1]) "   ").result =
      Except.error (PyError.aiServiceError
        "Failed to generate embedding with OpenAI: Text cannot be empty") ∧
    (generate_embedding "OpenAI" (fun _ => Except.error "backend down")
        "hello").result =
      Except.error (PyError.aiServiceError
        "Failed to generate embedding with OpenAI: backend down") := by
  refine ⟨by decide, by decide⟩

/-- C7 amended: for every text that is empty or whitespace-only after
trimming, `generate_embedding` fails without invoking the provider
backend; the inner `ValueError` (Text cannot be empty) is wrapped by
the blanket handler into `AIServiceError` — the same class used for
backend failures, not a distinct caller-fault kind. -/
theorem C7_amended_empty_text_wrapped (provider : String)
    (backend : String → Except String (List Rat)) (text : String)
    (h : pyStrip text = "") :
    generate_embedding provider backend text =
      ⟨Except.error (PyError.aiServiceError
        ("Failed to generate embedding with " ++ provider ++ ": " ++
          "Text cannot be empty")), 0⟩ := by
  simp only [generate_embedding, generate_embedding_body, h, beq_self_eq_true,
    if_true, PyError.msg]

/-- Witness for C7 amended: a whitespace-only text fails as an
`AIServiceError` with zero backend calls. -/
theorem C7_amended_empty_text_wrapped_witness :
    generate_embedding "Gemini" (fun _ => Except.ok [2]) "  " =
      ⟨Except.error (PyError.aiServiceError
        ("Failed to generate embedding with " ++ "Gemini" ++ ": " ++
          "Text cannot be empty")), 0⟩ :=
  C7_amended_empty_text_wrapped "Gemini" (fun _ => Except.ok [2]) "  "
    (by decide)

/-- A shared description of `cache_search_result` under a fresh key
within capacity: the old entries keep their order (the head is dropped
exactly when the cache is already full) and the fresh entry is appended
at the most-recent end. -/
theorem cache_search_result_fresh_key (cap now : Nat) (query username : String)
    (results : List ScoredResult) (cache : SearchCache)
    (hkey : cacheKey username query ∉ cache.map Prod.fst)
    (hcap : 1 ≤ cap) (hlen : cache.length ≤ cap) :
    cache_search_result cap query results username now cache =
      (if cache.length < cap then cache else cache.drop 1) ++
        [(cacheKey username query, ⟨query, results, now, username⟩)] := by
  have hfilter :
      cache.filter (fun kv => kv.1 != cacheKey username query) = cache := by
    apply List.filter_eq_self.mpr
    intro kv hkv
    have hne : kv.1 ≠ cacheKey username query := by
      intro heq
      exact hkey (heq ▸ List.mem_map_of_mem Prod.fst hkv)
    exact bne_iff_ne.mpr hne
  have hlen2 :
      (cache ++
        [(cacheKey username query,
          (⟨query, results, now, username⟩ : SearchResult))]).length =
        cache.length + 1 := by
    simp
  simp only [cache_search_result, hfilter, hlen2]
  by_cases hfull : cache.length < cap
  · rw [if_neg (by omega), if_pos hfull]
  · have hc : cache.length = cap := by omega
    rw [if_pos (by omega), if_neg hfull]
    have hsub : cache.length + 1 - cap = 1 := by omega
    rw [hsub, List.drop_append_of_le_length (by omega)]

/-- C8 counterexample: on the full ten-entry cache whose only fuzzy
match for the new query python tutorials is the oldest entry (cached
query python tutorials extra, a different string), the hit-path re-put
keyed by the new query evicts that very matched entry — it does not
remain in the cache at its previous position. -/
theorem C8_counterexample :
    search_cache_first_match cacheOldestMatches "u" "python tutorials" =
      some ⟨"python tutorials extra", demoResults, 0, "u"⟩ ∧
    ((cache_search_result 10 "python tutorials" demoResults "u" 99
        cacheOldestMatches).map Prod.fst).contains
      "u:python tutorials extra" = false := by
  refine ⟨by decide, by decide⟩

/-- C8 amended: on a fuzzy hit the engine inserts a new cache entry
keyed by the new query holding the matched entry's results rather than
refreshing the matched entry in place; when the new key is absent and
the cache is within capacity, every old entry keeps its relative
position — except that when the cache is already full, the
least-recently-inserted entry (which may be the matched one itself) is
evicted — and the total count grows by one exactly when the cache was
below capacity. -/
theorem C8_amended_hit_inserts_new_entry (cap now : Nat) (cache : SearchCache)
    (username query : String) (r : SearchResult)
    (hmatch : search_cache_first_match cache username query = some r)
    (hkey : cacheKey username query ∉ cache.map Prod.fst)
    (hcap : 1 ≤ cap) (hlen : cache.length ≤ cap) :
    search_cache_first_hit_update cap now cache username query =
      (if cache.length < cap then cache else cache.drop 1) ++
        [(cacheKey username query, ⟨query, r.results, now, username⟩)] := by
  simp only [search_cache_first_hit_update, hmatch]
  exact cache_search_result_fresh_key cap now query username r.results cache
    hkey hcap hlen

/-- Witness for C8 amended: on the one-entry cache a case-differing hit
adds a second entry keyed by the new query, keeping the matched entry
first. -/
theorem C8_amended_hit_inserts_new_entry_witness :
    search_cache_first_hit_update 10 50 cacheOne "u" "HELLO world" =
      cacheOne ++ [(cacheKey "u" "HELLO world",
        ⟨"HELLO world", demoResults, 50, "u"⟩)] :=
  C8_amended_hit_inserts_new_entry 10 50 cacheOne "u" "HELLO world"
    ⟨"hello world", demoResults, 1, "u"⟩ (by decide) (by decide)
    (by decide) (by decide)

/-- C9: the capacity bound is global, not per owner — on a concrete
full cache whose least-recently-inserted entry belongs to bob, a put by
alice evicts bob's entry while inserting alice's. -/
theorem C9_eviction_crosses_owners :
    cacheMixedOwners.length = 10 ∧
    (cacheMixedOwners.map Prod.fst).contains "bob:q0" = true ∧
    (cacheMixedOwners.head?.map (fun kv => kv.2.username)) = some "bob" ∧
    ((cache_search_result 10 "newq" [] "alice" 99 cacheMixedOwners).map
        Prod.fst).contains "bob:q0" = false ∧
    ((cache_search_result 10 "newq" [] "alice" 99 cacheMixedOwners).map
        Prod.fst).contains (cacheKey "alice" "newq") = true ∧
    (cache_search_result 10 "newq" [] "alice" 99 cacheMixedOwners).length =
      10 := by
  refine ⟨by decide, by decide, by decide, by decide, by decide, by decide⟩

/-- C10: when the enhanced vector search returns zero results,
`query_knowledge_base` leaves the recency cache unchanged (the empty
result set is never cached) after exactly one embedding call and one
vector search; repeating the query therefore runs through the identical
fresh embedding-and-search path again. -/
theorem C10_empty_results_never_cached (embed : String → List Rat)
    (search : List Rat → String → Nat → List ScoredResult)
    (chat : List ChatMessage → String) (cap now : Nat)
    (query username : String) (limit : Nat) (cache : SearchCache)
    (h : search (embed query) username (adjustedLimit query limit) = []) :
    (query_knowledge_base embed search chat cap now query username limit
        cache).cacheAfter = cache ∧
    (query_knowledge_base embed search chat cap now query username limit
        cache).embedCalls = 1 ∧
    (query_knowledge_base embed search chat cap now query username limit
        cache).searchCalls = 1 ∧
    query_knowledge_base embed search chat cap now query username limit
      ((query_knowledge_base embed search chat cap now query username limit
        cache).cacheAfter) =
      query_knowledge_base embed search chat cap now query username limit
        cache := by
  simp [query_knowledge_base, h]

/-- Witness for C10: with a search oracle returning nothing, the cache
is untouched and the engine embedded and searched exactly once. -/
theorem C10_empty_results_never_cached_witness :
    (query_knowledge_base (fun _ => [2]) (fun _ _ _ => [])
        (fun _ => "reply") 10 7 "zzz" "v" 5 cacheOne).cacheAfter = cacheOne ∧
    (query_knowledge_base (fun _ => [2]) (fun _ _ _ => [])
        (fun _ => "reply") 10 7 "zzz" "v" 5 cacheOne).embedCalls = 1 ∧
    (query_knowledge_base (fun _ => [2]) (fun _ _ _ => [])
        (fun _ => "reply") 10 7 "zzz" "v" 5 cacheOne).searchCalls = 1 ∧
    query_knowledge_base (fun _ => [2]) (fun _ _ _ => [])
      (fun _ => "reply") 10 7 "zzz" "v" 5
      ((query_knowledge_base (fun _ => [2]) (fun _ _ _ => [])
        (fun _ => "reply") 10 7 "zzz" "v" 5 cacheOne).cacheAfter) =
      query_knowledge_base (fun _ => [2]) (fun _ _ _ => [])
        (fun _ => "reply") 10 7 "zzz" "v" 5 cacheOne :=
  C10_empty_results_never_cached (fun _ => [2]) (fun _ _ _ => [])
    (fun _ => "reply") 10 7 "zzz" "v" 5 cacheOne rfl
